import Mathlib

/-!
Verification of the dependency-injection / observer core of SpikeSort
(`src/spike_beans/base.py`): the `FeatureBroker` registry, the
`RequiredFeature` dependency declaration, and the `Component` observer
graph with its transitive-dependent flattening.

Modelling conventions:
  * feature names are `String`s, resolved objects and components are
    identified by `Nat` ids;
  * a provider is either a plain value or a factory (the
    `isinstance(provider, Callable)` split in `Provide`); a factory is
    modelled by the object id it constructs/returns, and every resolution
    additionally reports how many factory invocations it performed
    (0 for a plain value, 1 for a factory), so that provider-invocation
    counts are observable in theorems;
  * the mutable world holds, for each object id, `some observers` when the
    object is a `Component` (and hence has `register_handler`) or `none`
    when it is a plain object without that attribute;
  * Python exceptions become explicit error values; a raised exception is
    returned alongside the state that was already mutated, matching
    Python's mutate-then-raise behaviour;
  * the recursive `get_dependencies` is fuel-indexed (`none` = the
    recursion did not complete within the given fuel); termination claims
    quantify over fuel.
-/

namespace SpikeBeans

/-- The distinguishable errors of `base.py`: the `AssertionError` raised by
`FeatureBroker.Provide` on a duplicate name, the `AttributeError` raised by
`FeatureBroker.__getitem__` on an unknown name, and the `AssertionError`
raised by `RequiredFeature.Request` when the assertion rejects the resolved
object. -/
inductive BeansError where
  | duplicateFeature (feature : String)
  | unknownFeature (feature : String)
  | capabilityViolation (feature : String) (obj : Nat)
  deriving Repr, DecidableEq

/-- A registered provider: `Provide` stores a thunk returning the provider
unchanged when it is not callable, and a thunk invoking it when it is.
`factory v` models a callable provider whose invocation yields object `v`. -/
inductive Provider where
  | value (v : Nat)
  | factory (v : Nat)
  deriving Repr, DecidableEq

/-- `FeatureBroker.__init__`: a provider mapping plus the `allowReplace`
flag. The Python `dict` is modelled as an association list updated in
place by `setProvider`. -/
structure FeatureBroker where
  allowReplace : Bool
  providers : List (String × Provider)
  deriving Repr, DecidableEq

/-- `self.providers[feature] = call`: dictionary assignment, replacing an
existing binding for the key or appending a new one. -/
def setProvider : List (String × Provider) → String → Provider → List (String × Provider)
  | [], f, p => [(f, p)]
  | (g, q) :: rest, f, p =>
      if g = f then (f, p) :: rest else (g, q) :: setProvider rest f p

/-- `FeatureBroker.Provide`: when `allowReplace` is off, asserts the feature
is not yet registered (raising the duplicate-feature error); then stores
the thunk for the provider. -/
def Provide (b : FeatureBroker) (feature : String) (provider : Provider) :
    Except BeansError FeatureBroker :=
  if b.allowReplace = false ∧ (b.providers.lookup feature).isSome = true then
    .error (.duplicateFeature feature)
  else
    .ok { b with providers := setProvider b.providers feature provider }

/-- `FeatureBroker.__getitem__`: looks the feature up (an unknown name
raises the unknown-feature error) and invokes the stored thunk. The second
component counts the factory invocations this resolution performed: 1 when
the provider was callable, 0 when it was a plain value. -/
def getItemCount (b : FeatureBroker) (feature : String) :
    Except BeansError (Nat × Nat) :=
  match b.providers.lookup feature with
  | none => .error (.unknownFeature feature)
  | some (.value v) => .ok (v, 0)
  | some (.factory v) => .ok (v, 1)

/-- `FeatureBroker.__getitem__`, result only. -/
def getItem (b : FeatureBroker) (feature : String) : Except BeansError Nat :=
  (getItemCount b feature).map (fun r => r.1)

/-- `NoAssertion`: the default assertion, accepting every object. -/
def NoAssertion : Nat → Bool := fun _ => true

/-- `Component.register_handler`: appends the handler to the observer list
unless it is already present. -/
def register_handler (observers : List Nat) (handler : Nat) : List Nat :=
  if handler ∈ observers then observers else observers ++ [handler]

/-- `Component.unregister_handler`: removes the handler from the observer
list when present, otherwise leaves the list unchanged. -/
def unregister_handler (observers : List Nat) (handler : Nat) : List Nat :=
  if handler ∈ observers then observers.erase handler else observers

/-- The mutable world seen by `RequiredFeature.Request`: for each object id,
`some observers` when the object is a `Component` (exposing
`register_handler`), `none` when it lacks that attribute. -/
structure World where
  comps : List (Option (List Nat))
  deriving Repr, DecidableEq

/-- `obj.register_handler(callee)` wrapped in `try ... except
AttributeError: pass`: mutates the object's observer list when the object
exposes `register_handler`, silently does nothing otherwise. -/
def tryRegisterHandler (w : World) (objId callee : Nat) : World :=
  match w.comps.getD objId none with
  | none => w
  | some obs => ⟨w.comps.set objId (some (register_handler obs callee))⟩

/-- `RequiredFeature.Request`: resolves the feature from the broker
(unknown-feature error propagates), best-effort registers the callee as an
observer of the resolved object, then asserts the assertion holds of the
object (raising the capability-violation error after the registration has
already happened). Returns the outcome, the post-state, and the number of
factory invocations performed. -/
def Request (b : FeatureBroker) (feature : String) (assertion : Nat → Bool)
    (callee : Nat) (w : World) : Except BeansError Nat × World × Nat :=
  match getItemCount b feature with
  | .error e => (.error e, w, 0)
  | .ok (obj, fc) =>
      let w1 := tryRegisterHandler w obj callee
      if assertion obj then (.ok obj, w1, fc)
      else (.error (.capabilityViolation feature obj), w1, fc)

/-- `RequiredFeature`: the feature name, the assertion, and the `result`
field assigned on each access. -/
structure RequiredFeature where
  feature : String
  assertion : Nat → Bool
  result : Option Nat

/-- `RequiredFeature.__get__`: unconditionally calls `Request` and stores
its result in `self.result` (when `Request` raises, the assignment does not
happen and the error propagates). Returns the outcome, the updated
descriptor, the updated world, and the factory invocations performed by
this access. -/
def rfGet (rf : RequiredFeature) (b : FeatureBroker) (callee : Nat) (w : World) :
    Except BeansError Nat × RequiredFeature × World × Nat :=
  match Request b rf.feature rf.assertion callee w with
  | (.ok obj, w1, fc) => (.ok obj, { rf with result := some obj }, w1, fc)
  | (.error e, w1, fc) => (.error e, rf, w1, fc)

/-- The loop body of `Component._rm_duplicate_deps`
(`for i, d in enumerate(deps): if d in deps[i+1:]: del deps[i]`), with
Python's iterator semantics made explicit: the index advances by one each
iteration even after a deletion, so the element shifted into the deleted
slot is skipped. The first argument bounds the number of iterations; since
the index grows by one per iteration and the list never grows, the initial
list length is enough fuel for the loop to reach its exit condition. -/
def rmDupAux : Nat → List Nat → Nat → List Nat
  | 0, deps, _ => deps
  | b + 1, deps, k =>
      if h : k < deps.length then
        if deps.get ⟨k, h⟩ ∈ deps.drop (k + 1) then
          rmDupAux b (deps.eraseIdx k) (k + 1)
        else
          rmDupAux b deps (k + 1)
      else deps

/-- `Component._rm_duplicate_deps`. -/
def rm_duplicate_deps (deps : List Nat) : List Nat :=
  rmDupAux deps.length deps 0

/-- An observer graph: node `i`'s direct observers are `g.getD i []`
(a node outside the list has no observers). -/
abbrev ObsGraph := List (List Nat)

/-- `[o.get_dependencies() for o in self.observers]`: the recursive calls
of `get_dependencies` on each observer, all at the given fuel; `none` when
any of them fails to complete. -/
def get_dependencies_list (f : Nat → Option (List Nat)) : List Nat → Option (List (List Nat))
  | [] => some []
  | o :: rest =>
      match f o, get_dependencies_list f rest with
      | some d, some ds => some (d :: ds)
      | _, _ => none

/-- `Component.get_dependencies`, fuel-indexed: flattens
`sum(deps, self.observers)` (the direct observers followed by each
observer's own transitive dependents) and removes duplicates with
`_rm_duplicate_deps`. `none` means the recursion did not complete within
the fuel. -/
def get_dependencies (g : ObsGraph) : Nat → Nat → Option (List Nat)
  | 0, _ => none
  | fuel + 1, i =>
      match get_dependencies_list (get_dependencies g fuel) (g.getD i []) with
      | none => none
      | some cds => some (rm_duplicate_deps (g.getD i [] ++ cds.flatten))

/-- The notification loop of `Component.notify_observers`
(`for dep in deps: dep._update()`), with the concrete `_update` hooks
abstracted by `raises` (whether a node's hook raises). Returns the trace of
nodes whose `_update` was invoked, and whether the loop aborted on an
exception: a raising hook is the last one invoked, and the remainder of the
list is never reached. -/
def runUpdates (raises : Nat → Bool) : List Nat → List Nat × Bool
  | [] => ([], false)
  | d :: rest =>
      if raises d then ([d], true)
      else
        let r := runUpdates raises rest
        (d :: r.1, r.2)

/-- `Component.notify_observers`: invokes `_update` on each entry of
`get_dependencies()`, in order, aborting on the first exception. -/
def notify_observers (g : ObsGraph) (raises : Nat → Bool) (fuel i : Nat) :
    Option (List Nat × Bool) :=
  (get_dependencies g fuel i).map (fun deps => runUpdates raises deps)

/-- `Component.update`: `self._update()` followed by
`self.notify_observers()`; an exception in the node's own hook aborts
before any notification. -/
def update (g : ObsGraph) (raises : Nat → Bool) (fuel i : Nat) :
    Option (List Nat × Bool) :=
  if raises i then some ([i], true)
  else (notify_observers g raises fuel i).map (fun r => (i :: r.1, r.2))

/-! Concrete instances used by the theorems below. -/

/-- A broker whose feature `"s"` is backed by a factory (callable provider)
constructing object 1. -/
def c1Broker : FeatureBroker := ⟨false, [("s", .factory 1)]⟩

/-- First attribute access on a fresh `RequiredFeature` for `"s"` by
consumer 0, in a world where objects 0 and 1 are components. -/
def c1First : Except BeansError Nat × RequiredFeature × World × Nat :=
  rfGet ⟨"s", NoAssertion, none⟩ c1Broker 0 ⟨[some [], some []]⟩

/-- Second attribute access on the same declaration instance, after the
first access has run (its cached `result` is populated). -/
def c1Second : Except BeansError Nat × RequiredFeature × World × Nat :=
  rfGet c1First.2.1 c1Broker 0 c1First.2.2.1

/-- Node 0 has direct observers 1, 2, 3 (in registration order) and node 3
in turn has observers 1 and 2; nodes 1 and 2 are leaves. Acyclic. -/
def c2Graph : ObsGraph := [[1, 2, 3], [], [], [1, 2]]

/-- The diamond: 1 and 2 both observe 0, and 3 observes both 1 and 2. -/
def diamondGraph : ObsGraph := [[1, 2], [3], [3], []]

/-- A two-node observer cycle: 0 and 1 observe each other. -/
def cycleGraph : ObsGraph := [[1], [0]]

/-- The chain 0 → 1 → 2 (1 observes 0, 2 observes 1). -/
def chainGraph : ObsGraph := [[1], [2], []]

/-! Helper lemmas. -/

theorem lookup_setProvider_self (ps : List (String × Provider)) (f : String) (p : Provider) :
    (setProvider ps f p).lookup f = some p := by
  induction ps with
  | nil => simp [setProvider, List.lookup]
  | cons gq rest ih =>
      obtain ⟨g, q⟩ := gq
      by_cases hg : g = f
      · subst hg
        simp [setProvider, List.lookup]
      · have hbe : (f == g) = false := by
          simp [Ne.symm hg]
        simp [setProvider, hg, List.lookup, hbe, ih]

theorem runUpdates_abort (raises : Nat → Bool) (pre : List Nat) (bad : Nat) (post : List Nat)
    (hpre : ∀ x ∈ pre, raises x = false) (hbad : raises bad = true) :
    runUpdates raises (pre ++ bad :: post) = (pre ++ [bad], true) := by
  induction pre with
  | nil => simp [runUpdates, hbad]
  | cons a rest ih =>
      have ha : raises a = false := hpre a (by simp)
      have hr := ih (fun x hx => hpre x (by simp [hx]))
      simp [runUpdates, ha, hr]

theorem get_dependencies_list_isSome (f : Nat → Option (List Nat)) (l : List Nat)
    (h : ∀ o ∈ l, (f o).isSome = true) :
    (get_dependencies_list f l).isSome = true := by
  induction l with
  | nil => rfl
  | cons o rest ih =>
      have h1 := h o (by simp)
      have h2 := ih (fun x hx => h x (by simp [hx]))
      rcases ho : f o with _ | d
      · rw [ho] at h1
        simp at h1
      · rcases hr : get_dependencies_list f rest with _ | ds
        · rw [hr] at h2
          simp at h2
        · simp [get_dependencies_list, ho, hr]

theorem get_dependencies_terminates (g : ObsGraph) (rank : Nat → Nat)
    (hr : ∀ i j, j ∈ g.getD i [] → rank j < rank i) :
    ∀ fuel i, rank i < fuel → (get_dependencies g fuel i).isSome = true := by
  intro fuel
  induction fuel with
  | zero =>
      intro i h
      exact absurd h (Nat.not_lt_zero _)
  | succ n ih =>
      intro i h
      have hos : (get_dependencies_list (get_dependencies g n) (g.getD i [])).isSome = true := by
        refine get_dependencies_list_isSome _ _ (fun o ho => ih o ?_)
        have := hr i o ho
        omega
      rcases hl : get_dependencies_list (get_dependencies g n) (g.getD i []) with _ | cds
      · rw [hl] at hos
        simp at hos
      · unfold get_dependencies
        rw [hl]
        rfl

theorem cycle_get_dependencies_none :
    ∀ fuel, get_dependencies cycleGraph fuel 0 = none ∧
      get_dependencies cycleGraph fuel 1 = none := by
  intro fuel
  induction fuel with
  | zero => exact ⟨rfl, rfl⟩
  | succ n ih =>
      have e0 : cycleGraph.getD 0 [] = [1] := rfl
      have e1 : cycleGraph.getD 1 [] = [0] := rfl
      constructor
      · unfold get_dependencies
        rw [e0]
        simp [get_dependencies_list, ih.2]
      · unfold get_dependencies
        rw [e1]
        simp [get_dependencies_list, ih.1]

/-! Claim theorems. -/

/-- Claim C1 (code bug): the spec says a `RequiredFeature` resolves its
target at most once and serves later accesses from the cache, but
`RequiredFeature.__get__` calls `Request` unconditionally, so the second
access on the same declaration instance queries the registry and invokes
the factory provider again: both accesses report one factory invocation
each, even though the first access already populated `result`. -/
theorem C1_second_access_invokes_factory_again :
    c1First.2.2.2 = 1 ∧ c1First.2.1.result = some 1 ∧
      c1Second.2.2.2 = 1 ∧ c1Second.1 = .ok 1 :=
  ⟨rfl, rfl, rfl, rfl⟩

/-- Claim C2 (code bug): the spec says `get_dependencies` returns each
transitive dependent exactly once, collapsed to its first occurrence, but
on the acyclic graph `c2Graph` (node 0 observes 1, 2, 3; node 3 observes
1, 2) the flattening is `[1, 2, 3, 1, 2]` and `_rm_duplicate_deps` — which
deletes while iterating, skipping the element shifted into the deleted
slot, and keeps last occurrences — returns `[2, 3, 1, 2]`: node 2 appears
twice and the order is not first-seen. -/
theorem C2_flattening_breaks_dedup_and_order :
    get_dependencies c2Graph 5 0 = some [2, 3, 1, 2] ∧
      ([2, 3, 1, 2] : List Nat).count 2 = 2 :=
  ⟨rfl, rfl⟩

/-- Claim C3 (confirmed): in the diamond (1 and 2 observe 0, 3 observes
both 1 and 2), `update` on node 0 invokes node 3's recomputation hook
exactly once: the full invocation trace is `[0, 1, 2, 3]`, in which 3
occurs once. -/
theorem C3_diamond_updates_node3_once :
    update diamondGraph (fun _ => false) 4 0 = some ([0, 1, 2, 3], false) ∧
      (update diamondGraph (fun _ => false) 4 0).map (fun r => r.1.count 3) = some 1 :=
  ⟨rfl, rfl⟩

/-- Claim C4, counterexample: on the two-node observer cycle,
`get_dependencies` of node 0 never completes — no amount of fuel makes the
recursion return — refuting the claim that the computation terminates on
every observer graph including cyclic ones. -/
theorem C4_counterexample_cycle_never_terminates :
    ¬ ∃ fuel, (get_dependencies cycleGraph fuel 0).isSome = true := by
  rintro ⟨fuel, hf⟩
  rw [(cycle_get_dependencies_none fuel).1] at hf
  simp at hf

/-- Claim C4 as amended: `get_dependencies` terminates on every observer
graph that admits a rank function decreasing along observer edges (i.e. on
every acyclic graph) — fuel `rank i + 1` suffices at node `i` — while on a
cyclic graph the recursion never completes. -/
theorem C4_amended_terminates_on_ranked_graphs (g : ObsGraph) (rank : Nat → Nat)
    (hr : ∀ i j, j ∈ g.getD i [] → rank j < rank i) (i : Nat) :
    (get_dependencies g (rank i + 1) i).isSome = true :=
  get_dependencies_terminates g rank hr (rank i + 1) i (Nat.lt_succ_self _)

/-- Witness for C4's amended theorem: the chain 0 → 1 → 2 with rank
`fun k => 2 - k` terminates with fuel 3 at node 0. -/
theorem C4_amended_witness : (get_dependencies chainGraph 3 0).isSome = true := by
  have hr : ∀ i j, j ∈ chainGraph.getD i [] → (2 - j) < (2 - i) := by
    intro i j hj
    match i with
    | 0 =>
        have e : chainGraph.getD 0 [] = [1] := rfl
        rw [e] at hj
        simp at hj
        omega
    | 1 =>
        have e : chainGraph.getD 1 [] = [2] := rfl
        rw [e] at hj
        simp at hj
        omega
    | 2 =>
        have e : chainGraph.getD 2 [] = [] := rfl
        rw [e] at hj
        simp at hj
    | n + 3 =>
        have e : chainGraph.getD (n + 3) [] = [] := by
          simp [chainGraph, List.getD]
        rw [e] at hj
        simp at hj
  exact C4_amended_terminates_on_ranked_graphs chainGraph (fun k => 2 - k) hr 0

/-- Claim C9 (confirmed): on a duplicate-free observer list,
`register_handler` is idempotent — registering the same handler twice
leaves exactly one entry for it — and `unregister_handler` of an absent
handler is a no-op leaving the list unchanged. -/
theorem C9_register_unregister_idempotent (l : List Nat) (h : Nat) (hnd : l.Nodup) :
    (register_handler (register_handler l h) h = register_handler l h ∧
      (register_handler l h).count h = 1) ∧
    (h ∉ l → unregister_handler l h = l) := by
  refine ⟨⟨?_, ?_⟩, ?_⟩
  · by_cases hm : h ∈ l
    · simp [register_handler, hm]
    · have hm2 : h ∈ l ++ [h] := by simp
      simp [register_handler, hm, hm2]
  · by_cases hm : h ∈ l
    · simp [register_handler, hm]
      exact List.count_eq_one_of_mem hnd hm
    · have hz : l.count h = 0 := List.count_eq_zero_of_not_mem hm
      simp [register_handler, hm, List.count_append, hz]
  · intro hm
    simp [unregister_handler, hm]

/-- Witness for C9: on the observer list `[5]`, registering 3 twice yields
`[5, 3]` with a single entry for 3, and unregistering the absent 3 leaves
`[5]` unchanged. -/
theorem C9_witness :
    (register_handler (register_handler [5] 3) 3 = register_handler [5] 3 ∧
      (register_handler [5] 3).count 3 = 1) ∧
    unregister_handler [5] 3 = [5] := by
  have h := C9_register_unregister_idempotent [5] 3 (by decide)
  exact ⟨h.1, h.2 (by decide)⟩

/-- Claim C5 (confirmed): resolving a feature that was never provided fails
with the unknown-feature error, and after providing a plain (non-callable)
value `v` for `f`, every resolution of `f` succeeds returning exactly `v`
with no factory invocation (resolution is a pure function of the broker, so
this holds on every call). -/
theorem C5_unknown_error_and_plain_value_resolution (b : FeatureBroker) (f : String) (v : Nat) :
    (b.providers.lookup f = none → getItemCount b f = .error (.unknownFeature f)) ∧
    (∀ b2, Provide b f (.value v) = .ok b2 → getItemCount b2 f = .ok (v, 0)) := by
  constructor
  · intro hnone
    simp [getItemCount, hnone]
  · intro b2 hp
    unfold Provide at hp
    split at hp
    · exact absurd hp (by simp)
    · cases hp
      simp [getItemCount, lookup_setProvider_self]

/-- Witness for C5: the empty broker rejects `"f"` with the unknown-feature
error, and after providing the plain value 5 for `"f"`, resolution returns
5 with no factory invocation. -/
theorem C5_witness :
    getItemCount ⟨false, []⟩ "f" = .error (.unknownFeature "f") ∧
    getItemCount ⟨false, [("f", Provider.value 5)]⟩ "f" = .ok (5, 0) := by
  have h := C5_unknown_error_and_plain_value_resolution ⟨false, []⟩ "f" 5
  exact ⟨h.1 rfl, h.2 ⟨false, [("f", Provider.value 5)]⟩ rfl⟩

/-- Claim C6 (confirmed): providing the same feature twice fails with the
duplicate-feature error when replacement is disabled, leaving the first
registration resolvable; with replacement enabled the second registration
succeeds and subsequent resolution returns the new value. -/
theorem C6_duplicate_provide (b : FeatureBroker) (f : String) (v1 v2 : Nat)
    (b1 : FeatureBroker) (h1 : Provide b f (.value v1) = .ok b1) :
    (b.allowReplace = false →
      Provide b1 f (.value v2) = .error (.duplicateFeature f) ∧
        getItemCount b1 f = .ok (v1, 0)) ∧
    (b.allowReplace = true →
      ∀ b2, Provide b1 f (.value v2) = .ok b2 → getItemCount b2 f = .ok (v2, 0)) := by
  have hb1 : b1 = { b with providers := setProvider b.providers f (.value v1) } := by
    unfold Provide at h1
    split at h1
    · exact absurd h1 (by simp)
    · cases h1
      rfl
  subst hb1
  constructor
  · intro har
    constructor
    · unfold Provide
      split
      · rfl
      · rename_i hcond
        refine absurd ⟨har, ?_⟩ hcond
        rw [lookup_setProvider_self]
        rfl
    · simp [getItemCount, lookup_setProvider_self]
  · intro har b2 h2
    unfold Provide at h2
    split at h2
    · rename_i hcond
      rw [har] at hcond
      exact absurd hcond.1 (by simp)
    · cases h2
      simp [getItemCount, lookup_setProvider_self]

/-- Witness for C6: with replacement disabled, providing `"f"` a second
time on a broker already holding `"f" ↦ 1` fails with the
duplicate-feature error, and `"f"` still resolves to the first value 1. -/
theorem C6_witness :
    Provide ⟨false, [("f", Provider.value 1)]⟩ "f" (.value 2) =
      .error (.duplicateFeature "f") ∧
    getItemCount ⟨false, [("f", Provider.value 1)]⟩ "f" = .ok (1, 0) := by
  have h := C6_duplicate_provide ⟨false, []⟩ "f" 1 2 ⟨false, [("f", Provider.value 1)]⟩ rfl
  exact h.1 rfl

/-- Claim C7 (confirmed): when, during the notification pass of `update`,
the hook of some dependent `bad` raises while every dependent before it in
the flattened order runs cleanly, the pass invokes exactly the node itself,
the earlier dependents and `bad` (in order), aborts there, and no entry
after `bad` in the dependent order is invoked; the error unwinds out of
`update`. -/
theorem C7_update_aborts_on_raise (g : ObsGraph) (raises : Nat → Bool) (fuel i : Nat)
    (pre : List Nat) (bad : Nat) (post : List Nat)
    (hself : raises i = false)
    (hdeps : get_dependencies g fuel i = some (pre ++ bad :: post))
    (hpre : ∀ x ∈ pre, raises x = false) (hbad : raises bad = true) :
    update g raises fuel i = some (i :: (pre ++ [bad]), true) := by
  unfold update notify_observers
  simp [hself, hdeps, runUpdates_abort raises pre bad post hpre hbad]

/-- Witness for C7: on the chain 0 → 1 → 2 where node 1's hook raises,
`update` of node 0 invokes 0 and 1 only — node 2, later in the dependent
order `[1, 2]`, is never invoked — and reports the abort. -/
theorem C7_witness :
    update chainGraph (fun n => n == 1) 3 0 = some ([0, 1], true) := by
  have h := C7_update_aborts_on_raise chainGraph (fun n => n == 1) 3 0 [] 1 [2]
    rfl rfl (by simp) rfl
  exact h

/-- Claim C8 (confirmed): when the resolved object does not expose
`register_handler` (it is not a component of the world) and the assertion
accepts it, `Request` succeeds returning the object, and the world is left
completely unchanged — the missing observer-registration capability is
silently skipped, its only consequence being that no dependency edge is
recorded. -/
theorem C8_missing_register_handler_is_skipped (b : FeatureBroker) (f : String)
    (assertion : Nat → Bool) (callee obj fc : Nat) (w : World)
    (hres : getItemCount b f = .ok (obj, fc))
    (hnoreg : w.comps.getD obj none = none)
    (hpred : assertion obj = true) :
    Request b f assertion callee w = (.ok obj, w, fc) := by
  simp only [Request, tryRegisterHandler, hres, hnoreg, hpred]
  rfl

/-- Witness for C8: feature `"s"` resolves to object 1, which is not a
component (no `register_handler`); with the default assertion, `Request`
by consumer 0 succeeds with object 1 and the world is unchanged. -/
theorem C8_witness :
    Request ⟨false, [("s", Provider.value 1)]⟩ "s" NoAssertion 0 ⟨[some [], none]⟩ =
      (.ok 1, ⟨[some [], none]⟩, 0) :=
  C8_missing_register_handler_is_skipped ⟨false, [("s", Provider.value 1)]⟩ "s"
    NoAssertion 0 1 0 ⟨[some [], none]⟩ rfl rfl rfl

/-- Claim C10 (confirmed): when the resolved object exposes
`register_handler` but fails the declaration's assertion, `Request` first
registers the callee as an observer of the object and only then raises the
capability-violation error, so the returned (post-exception) world carries
the registration: resolution is not atomic on predicate failure. -/
theorem C10_predicate_failure_keeps_registration (b : FeatureBroker) (f : String)
    (assertion : Nat → Bool) (callee obj fc : Nat) (w : World) (obs : List Nat)
    (hres : getItemCount b f = .ok (obj, fc))
    (hreg : w.comps.getD obj none = some obs)
    (hpred : assertion obj = false) :
    Request b f assertion callee w =
      (.error (.capabilityViolation f obj),
        ⟨w.comps.set obj (some (register_handler obs callee))⟩, fc) := by
  simp only [Request, tryRegisterHandler, hres, hreg, hpred]
  rfl

/-- Witness for C10: feature `"s"` resolves to component 1; the assertion
rejects every object, yet after the failing `Request` by consumer 0 the
world shows 0 registered as an observer of 1. -/
theorem C10_witness :
    Request ⟨false, [("s", Provider.value 1)]⟩ "s" (fun _ => false) 0 ⟨[some [], some []]⟩ =
      (.error (.capabilityViolation "s" 1), ⟨[some [], some [0]]⟩, 0) :=
  C10_predicate_failure_keeps_registration ⟨false, [("s", Provider.value 1)]⟩ "s"
    (fun _ => false) 0 1 0 ⟨[some [], some []]⟩ [] rfl rfl rfl

end SpikeBeans
